import Mathlib

/-!
Verification of the auto_printaria backend against its specification.

The Lean definitions below are a shallow embedding of the Python sources:
  - backend/app/models.py                    (enums and table rows)
  - backend/app/services/session_service.py  (conversation sessions)
  - backend/app/services/order_service.py    (pricing and finalization)
  - backend/app/api/routes/twilio.py         (conversation state machine, parsers)
  - backend/app/api/routes/print_jobs.py     (worker-facing job endpoints)
  - backend/app/api/routes/webhooks.py       (Razorpay webhook ingestion)

Modelling conventions: database rows are records, the database is explicit
state threaded through functions, SQLAlchemy mutations become functional
updates, raised HTTPException / ValueError becomes Except.error, timestamps
are natural numbers counting seconds, and Python float arithmetic is
modelled by exact rationals with an explicit IEEE-754 binary64
round-to-nearest-even operation (toDouble) applied wherever CPython rounds.
-/

namespace AmpK

-- ===========================================================================
-- Enums (backend/app/models.py)
-- ===========================================================================

/-- OrderStatus enum from models.py. -/
inductive OrderStatus where
  | DRAFT
  | PAYMENT_PENDING
  | PAID
  | CANCELLED
deriving DecidableEq, Repr

/-- PaymentStatus enum from models.py. -/
inductive PaymentStatus where
  | INITIATED
  | SUCCESS
  | FAILED
deriving DecidableEq, Repr

/-- PrintStatus enum from models.py. -/
inductive PrintStatus where
  | QUEUED
  | PRINTING
  | COMPLETED
  | FAILED
deriving DecidableEq, Repr

/-- PrintType enum from models.py. -/
inductive PrintType where
  | COLOR
  | BW
  | BOTH
deriving DecidableEq, Repr

/-- ConversationState enum from models.py. -/
inductive ConversationState where
  | IDLE
  | AWAITING_FILE
  | AWAITING_PRINT_TYPE
  | AWAITING_COPIES
  | AWAITING_PAYMENT
deriving DecidableEq, Repr

-- ===========================================================================
-- Table rows (backend/app/models.py); ids are naturals standing for UUIDs
-- ===========================================================================

/-- Row of the orders table (models.py, class Order).  Fields not touched by
any verified operation (hashes, timestamps) are omitted. -/
structure Order where
  id : ℕ
  customer_phone : String
  file_name : Option String
  file_url : Option String
  file_media_id : Option String
  page_count : ℕ
  print_type : Option PrintType
  copies : ℕ
  amount : Option ℚ
  razorpay_payment_link_id : Option String
  razorpay_payment_link_url : Option String
  order_status : OrderStatus
  shop_id : Option ℕ
deriving DecidableEq, Repr

/-- Row of the payments table (models.py, class Payment). -/
structure Payment where
  order_id : ℕ
  provider_reference : Option String
  payment_link_id : Option String
  payment_status : PaymentStatus
  amount : ℚ
  paid_at : Option ℕ
deriving DecidableEq, Repr

/-- Row of the print_jobs table (models.py, class PrintJob). -/
structure PrintJob where
  id : ℕ
  order_id : ℕ
  shop_id : Option ℕ
  print_status : PrintStatus
  retry_count : ℕ
  max_retries : ℕ
  last_error : Option String
  printed_at : Option ℕ
deriving DecidableEq, Repr

/-- Row of the user_sessions table (models.py, class UserSession). -/
structure UserSession where
  phone : String
  state : ConversationState
  draft_order_id : Option ℕ
  temp_file_url : Option String
  temp_file_name : Option String
  temp_file_media_id : Option String
  temp_print_type : Option PrintType
  last_activity : Option ℕ
deriving DecidableEq, Repr

-- ===========================================================================
-- Session service (backend/app/services/session_service.py)
-- ===========================================================================

/-- SESSION_TIMEOUT_MINUTES = 30 (session_service.py line 22). -/
def SESSION_TIMEOUT_MINUTES : ℕ := 30

/-- is_session_expired (session_service.py lines 75-81): a session is expired
when datetime.utcnow() is strictly later than last_activity plus the timeout.
Times are seconds, so the timeout is 30 * 60 seconds. -/
def is_session_expired (now : ℕ) (session : UserSession) : Bool :=
  match session.last_activity with
  | none => true
  | some t => decide (t + SESSION_TIMEOUT_MINUTES * 60 < now)

/-- Body of get_or_create_session (session_service.py lines 44-59) on the
branch where a session row for the phone already exists: an expired session
has its state and all temporary fields reset before last_activity is
refreshed; a live session only gets the last_activity refresh. -/
def get_or_create_session_existing (now : ℕ) (session : UserSession) : UserSession :=
  let session1 :=
    if is_session_expired now session then
      { session with
          state := ConversationState.IDLE
          draft_order_id := none
          temp_file_url := none
          temp_file_name := none
          temp_file_media_id := none
          temp_print_type := none }
    else
      session
  { session1 with last_activity := some now }

/-- clear_session (session_service.py lines 153-167). -/
def clear_session (now : ℕ) (session : UserSession) : UserSession :=
  { session with
      state := ConversationState.IDLE
      draft_order_id := none
      temp_file_url := none
      temp_file_name := none
      temp_file_media_id := none
      temp_print_type := none
      last_activity := some now }

/-- update_session_state (session_service.py lines 84-98). -/
def update_session_state (now : ℕ) (session : UserSession)
    (new_state : ConversationState) : UserSession :=
  { session with state := new_state, last_activity := some now }

-- ===========================================================================
-- Python string helpers used by the twilio route
-- ===========================================================================

/-- Whitespace characters removed by str.strip().  The model covers the ASCII
whitespace actually produced by chat transports. -/
def isPyWS (c : Char) : Bool :=
  c = ' ' || c = '\t' || c = '\n' || c = '\r'

/-- str.strip() on the character list of a string. -/
def pyStripL (l : List Char) : List Char :=
  ((l.dropWhile isPyWS).reverse.dropWhile isPyWS).reverse

/-- str.strip() (Python) as a String operation. -/
def pyStrip (s : String) : String :=
  ⟨pyStripL s.data⟩

/-- str.lower() (Python), ASCII case folding. -/
def pyLower (s : String) : String :=
  ⟨s.data.map Char.toLower⟩

/-- str.upper() (Python), ASCII case folding. -/
def pyUpper (s : String) : String :=
  ⟨s.data.map Char.toUpper⟩

/-- Shape check for the digit part of a Python int literal: nonempty, begins
and ends with a digit, and any underscore separates two digits.  This is the
grammar accepted by the CPython int(str) constructor after sign removal. -/
def intDigitsShape : List Char → Bool
  | [] => false
  | [c] => c.isDigit
  | c :: d :: rest =>
      c.isDigit && (if d = '_' then intDigitsShape rest else intDigitsShape (d :: rest))

/-- Numeric value of a list of decimal digit characters. -/
def digitsVal (l : List Char) : ℕ :=
  l.foldl (fun n c => 10 * n + (c.toNat - '0'.toNat)) 0

/-- int(str) (CPython): surrounding whitespace, one optional sign, then
decimal digits optionally grouped by single underscores.  Unicode digits are
not modelled.  Returns none where CPython raises ValueError. -/
def pyIntParse (s : String) : Option ℤ :=
  match pyStripL s.data with
  | [] => none
  | c :: rest =>
      let signed : Bool × List Char :=
        if c = '+' then (false, rest)
        else if c = '-' then (true, rest)
        else (false, c :: rest)
      if intDigitsShape signed.2 then
        let v : ℤ := (digitsVal (signed.2.filter (fun d => d ≠ '_')) : ℤ)
        some (if signed.1 then -v else v)
      else
        none

-- ===========================================================================
-- Input parsers (backend/app/api/routes/twilio.py)
-- ===========================================================================

/-- String value of a PrintType member, as used by the .value accesses. -/
def PrintType.value : PrintType → String
  | PrintType.COLOR => "COLOR"
  | PrintType.BW => "BW"
  | PrintType.BOTH => "BOTH"

/-- Mapping of spelled numbers in parse_copies_input (twilio.py lines 324-327). -/
def word_to_num : List (String × ℕ) :=
  [("one", 1), ("two", 2), ("three", 3), ("four", 4), ("five", 5),
   ("six", 6), ("seven", 7), ("eight", 8), ("nine", 9), ("ten", 10)]

/-- parse_copies_input (twilio.py lines 315-341): strip the message, accept a
spelled number one..ten case-insensitively, otherwise fall back to int(), and
finally keep only values in the range 1..100. -/
def parse_copies_input (message : String) : Option ℕ :=
  let message := pyStrip message
  let copies : Option ℤ :=
    match word_to_num.lookup (pyLower message) with
    | some k => some (k : ℤ)
    | none => pyIntParse message
  match copies with
  | none => none
  | some c => if 1 ≤ c ∧ c ≤ 100 then some c.toNat else none

/-- parse_print_type_selection (twilio.py lines 289-312). -/
def parse_print_type_selection (message : String) : Option PrintType :=
  let message := pyLower (pyStrip message)
  if message = "1" || message = "one" then some PrintType.COLOR
  else if message = "2" || message = "two" then some PrintType.BW
  else if message = "3" || message = "three" then some PrintType.BOTH
  else if message = "color" || message = "colour" || message = "color xerox" ||
          message = "colour xerox" || message = "color print" then some PrintType.COLOR
  else if message = "bw" || message = "b&w" || message = "black" ||
          message = "black and white" || message = "black & white" ||
          message = "black white" then some PrintType.BW
  else if message = "both" || message = "color and bw" || message = "color + bw" ||
          message = "all" then some PrintType.BOTH
  else none

-- ===========================================================================
-- Conversation state machine (twilio.py, process_message lines 82-176)
-- ===========================================================================

/-- Reply templates from twilio_service.py; only their identity matters here,
so they are uninterpreted string constants or simple builders. -/
def msg_welcome : String := "Welcome to AMP K. Send a document to print."

/-- Reply sent when a print type selection is invalid (twilio_service.py). -/
def msg_invalid_input : String := "Invalid input."

/-- Reply naming the received file (twilio_service.py). -/
def msg_file_received (filename : String) : String :=
  "File received: " ++ filename

/-- Reply confirming a print type selection (twilio_service.py). -/
def msg_print_type_selected (value : String) : String :=
  "Print type selected: " ++ value

/-- Reply sent when the copies input is invalid (twilio_service.py). -/
def msg_invalid_copies : String := "Please send a valid number of copies (1-100)."

/-- Payment-waiting reminder returned by process_message (twilio.py lines 168-172). -/
def msg_payment_reminder : String := "Waiting for payment..."

/-- Cancellation reply returned by process_message (twilio.py line 165). -/
def msg_order_cancelled : String := "Order cancelled. Send a document to start a new order."

/-- Outcome of one process_message call.  Branches whose effects run through
external capabilities (media download, payment-link creation) are kept
abstract as fileUpload / finalize markers; every branch that only touches the
session, the orders table and the reply text is modelled exactly. -/
inductive ProcResult where
  | reply (session : UserSession) (orders : List Order) (text : String)
  | fileUpload (session : UserSession) (orders : List Order)
  | finalize (session : UserSession) (orders : List Order) (copies : ℕ)
deriving DecidableEq, Repr

/-- process_message (twilio.py lines 82-176).  The message argument is the
body already stripped and lowercased by handle_twilio_webhook (line 55); now
is the current time used for the last_activity refreshes performed by the
session service calls. -/
def process_message (now : ℕ) (session : UserSession) (orders : List Order)
    (message : String) (has_media : Bool) : ProcResult :=
  match session.state with
  | ConversationState.IDLE =>
      if has_media then ProcResult.fileUpload session orders
      else
        ProcResult.reply
          (update_session_state now session ConversationState.AWAITING_FILE)
          orders msg_welcome
  | ConversationState.AWAITING_FILE =>
      if has_media then ProcResult.fileUpload session orders
      else ProcResult.reply session orders msg_welcome
  | ConversationState.AWAITING_PRINT_TYPE =>
      if has_media then ProcResult.fileUpload session orders
      else
        match parse_print_type_selection message with
        | some print_type =>
            ProcResult.reply
              { session with
                  temp_print_type := some print_type
                  state := ConversationState.AWAITING_COPIES
                  last_activity := some now }
              orders (msg_print_type_selected print_type.value)
        | none =>
            ProcResult.reply session orders
              (msg_invalid_input ++ "\n\n" ++
                msg_file_received (session.temp_file_name.getD "your file"))
  | ConversationState.AWAITING_COPIES =>
      if has_media then ProcResult.fileUpload session orders
      else
        match parse_copies_input message with
        | some copies =>
            if copies ≠ 0 then ProcResult.finalize session orders copies
            else ProcResult.reply session orders msg_invalid_copies
        | none => ProcResult.reply session orders msg_invalid_copies
  | ConversationState.AWAITING_PAYMENT =>
      if has_media then ProcResult.fileUpload session orders
      else if message = "cancel" || message = "stop" || message = "exit" then
        ProcResult.reply (clear_session now session) orders msg_order_cancelled
      else
        ProcResult.reply session orders msg_payment_reminder

-- ===========================================================================
-- Worker-facing print job endpoints (backend/app/api/routes/print_jobs.py)
-- ===========================================================================

/-- Notification sent by send_print_notification (print_jobs.py lines 277-298):
a completion or failure WhatsApp message about an order. -/
inductive Notification where
  | printComplete (order_id : ℕ)
  | printFailed (order_id : ℕ)
deriving DecidableEq, Repr

/-- PrintStatus.__members__ of models.py, the names accepted by the status
endpoint after upper-casing. -/
def printStatusMembers : List String :=
  ["QUEUED", "PRINTING", "COMPLETED", "FAILED"]

/-- Lookup of PrintStatus[name] for a member name. -/
def printStatusOfName (s : String) : Option PrintStatus :=
  if s = "QUEUED" then some PrintStatus.QUEUED
  else if s = "PRINTING" then some PrintStatus.PRINTING
  else if s = "COMPLETED" then some PrintStatus.COMPLETED
  else if s = "FAILED" then some PrintStatus.FAILED
  else none

/-- update_print_job_status (print_jobs.py lines 93-166) for an existing job:
validates the upper-cased status name against PrintStatus.__members__,
applies the new status unconditionally, stamps printed_at and notifies on
COMPLETED, and on FAILED records the error, increments retry_count and
notifies the customer whenever the new retry_count has reached max_retries.
Returns the updated job and the notifications sent. -/
def update_print_job_status (now : ℕ) (job : PrintJob) (status_update : String)
    (error_message : Option String) : Except String (PrintJob × List Notification) :=
  let status_upper := pyUpper status_update
  match printStatusOfName status_upper with
  | none => Except.error ("Invalid status: " ++ status_update)
  | some new_status =>
      let job1 := { job with print_status := new_status }
      if new_status = PrintStatus.COMPLETED then
        Except.ok ({ job1 with printed_at := some now },
                   [Notification.printComplete job.order_id])
      else if new_status = PrintStatus.FAILED then
        let job2 := { job1 with
                        last_error := error_message
                        retry_count := job.retry_count + 1 }
        if job2.max_retries ≤ job2.retry_count then
          Except.ok (job2, [Notification.printFailed job.order_id])
        else
          Except.ok (job2, [])
      else
        Except.ok (job1, [])

/-- Repeated delivery of n consecutive FAILED status reports to
update_print_job_status, collecting every notification sent.  A report that
errored leaves the job unchanged (cannot happen for the literal "FAILED"). -/
def reportFailedN (now : ℕ) (job : PrintJob) : ℕ → PrintJob × List Notification
  | 0 => (job, [])
  | n + 1 =>
      let prev := reportFailedN now job n
      match update_print_job_status now prev.1 "FAILED" (some "printer error") with
      | Except.ok (job1, notifs) => (job1, prev.2 ++ notifs)
      | Except.error _ => prev

/-- retry_print_job (print_jobs.py lines 228-274) for an existing job: only a
FAILED job may be retried; on success the status returns to QUEUED, the last
error is cleared, retry_count is intentionally left unchanged, and the job id
is pushed back on the Redis queue (returned as the enqueued-ids list). -/
def retry_print_job (job : PrintJob) : Except String (PrintJob × List ℕ) :=
  if job.print_status ≠ PrintStatus.FAILED then
    Except.error "Can only retry FAILED jobs"
  else
    Except.ok ({ job with print_status := PrintStatus.QUEUED, last_error := none },
               [job.id])

-- ===========================================================================
-- Python float arithmetic (IEEE-754 binary64), modelled over exact rationals
-- ===========================================================================

/-- Nearest integer to x with ties going to the even integer, the rounding
used both by IEEE-754 round-to-nearest-even and by round() and Decimal
(ROUND_HALF_EVEN) in Python. -/
def roundHalfEvenQ (x : ℚ) : ℤ :=
  let n := ⌊x⌋
  let r := x - (n : ℚ)
  if r < 1 / 2 then n
  else if 1 / 2 < r then n + 1
  else if 2 ∣ n then n else n + 1

/-- Value of the IEEE-754 binary64 double nearest to the real number q
(round-to-nearest, ties-to-even), as an exact rational: the significand is
rounded to 53 bits at the exponent of q.  Overflow and subnormals are outside
the range exercised by the program and are not modelled. -/
def toDouble (q : ℚ) : ℚ :=
  if q = 0 then 0
  else
    let e : ℤ := Int.log 2 |q|
    let m : ℤ := roundHalfEvenQ (|q| * (2 : ℚ) ^ (52 - e))
    (if q < 0 then -1 else 1) * (m : ℚ) * (2 : ℚ) ^ (e - 52)

/-- Effect of Decimal(str(round(total, 2))) in calculate_price: CPython
round(float, 2) yields the float nearest to the half-even rounding of the
argument to 2 decimal places, and str/Decimal round-trip that 2-decimal value
exactly for every magnitude the program produces, so the stored amount is the
exact half-even 2-decimal rounding of the float value. -/
def pyRound2 (x : ℚ) : ℚ :=
  (roundHalfEvenQ (x * 100) : ℚ) / 100

-- ===========================================================================
-- Pricing (backend/app/services/order_service.py, calculate_price lines 33-71)
-- ===========================================================================

/-- PRICE_PER_PAGE_BW: float = 2.0 (config.py line 47); 2.0 is exactly
representable, so the configured double equals 2. -/
def PRICE_PER_PAGE_BW : ℚ := 2

/-- PRICE_PER_PAGE_COLOR: float = 10.0 (config.py line 48). -/
def PRICE_PER_PAGE_COLOR : ℚ := 10

/-- Python truthiness fallback x or default, as applied to the optional float
rate overrides: None and 0.0 both fall back to the configured default. -/
def pyOrDefault (x : Option ℚ) (default : ℚ) : ℚ :=
  match x with
  | none => default
  | some v => if v = 0 then default else v

/-- calculate_price (order_service.py lines 33-71).  The rate arguments hold
the Python float values passed by the caller (already binary64 values); the
arithmetic is Python float arithmetic, so every int-to-float conversion,
multiplication and addition rounds through toDouble, and the result is stored
via Decimal(str(round(total, 2))), modelled by pyRound2. -/
def calculate_price (print_type : PrintType) (copies : ℕ) (page_count : ℕ)
    (price_bw price_color : Option ℚ) : ℚ :=
  let price_bw := pyOrDefault price_bw PRICE_PER_PAGE_BW
  let price_color := pyOrDefault price_color PRICE_PER_PAGE_COLOR
  let n : ℚ := ((page_count * copies : ℕ) : ℚ)
  let total : ℚ :=
    match print_type with
    | PrintType.BW => toDouble (toDouble n * price_bw)
    | PrintType.COLOR => toDouble (toDouble n * price_color)
    | PrintType.BOTH => toDouble (toDouble n * toDouble (price_bw + price_color))
  pyRound2 total

/-- Specification-side pricing, stated from the spec words for comparison
with calculate_price: price = page_count x copies x rate computed with exact
currency-safe decimal arithmetic and rounded to 2 decimal places (Decimal
rounding, ROUND_HALF_EVEN); the rates are the configured decimal rates. -/
def calculate_price_decimal_spec (print_type : PrintType) (copies : ℕ)
    (page_count : ℕ) (bw_rate color_rate : ℚ) : ℚ :=
  let rate : ℚ :=
    match print_type with
    | PrintType.BW => bw_rate
    | PrintType.COLOR => color_rate
    | PrintType.BOTH => bw_rate + color_rate
  pyRound2 ((page_count : ℚ) * (copies : ℚ) * rate)

-- ===========================================================================
-- Order finalization (order_service.py, lines 162-207)
-- ===========================================================================

/-- finalize_order_with_payment_link (order_service.py lines 162-207).  The
payment-link capability call is external; its returned url and id are
parameters.  Python raises ValueError when the order is not DRAFT or when
`not order.amount or order.amount <= 0`; both raises happen before any
mutation.  On success the order carries the link id and url, moves to
PAYMENT_PENDING, and a Payment row in INITIATED status is created with the
order id and amount. -/
def finalize_order_with_payment_link (order : Order)
    (payment_url payment_link_id : String) : Except String (Order × Payment) :=
  if order.order_status ≠ OrderStatus.DRAFT then
    Except.error "Order is not in DRAFT status"
  else
    match order.amount with
    | none => Except.error "Order has invalid amount"
    | some a =>
        if a ≤ 0 then Except.error "Order has invalid amount"
        else
          Except.ok
            ({ order with
                razorpay_payment_link_id := some payment_link_id
                razorpay_payment_link_url := some payment_url
                order_status := OrderStatus.PAYMENT_PENDING },
             { order_id := order.id
               provider_reference := none
               payment_link_id := some payment_link_id
               payment_status := PaymentStatus.INITIATED
               amount := a
               paid_at := none })

-- ===========================================================================
-- Razorpay webhook ingestion (backend/app/api/routes/webhooks.py)
-- ===========================================================================

/-- Parsed Razorpay webhook event after signature verification.  event_id is
the derived idempotency identifier (the provider event_id, or the sha256 of
the body when absent: identical bodies derive identical identifiers).
reference_id is the payment-link reference parsed as an order UUID (none when
absent or unparseable); notes_order_id is the order note consulted by the
payment.captured fallback handler. -/
structure RzpEvent where
  event_id : String
  event_type : String
  payment_link_id : Option String
  razorpay_payment_id : Option String
  amount_paise : ℕ
  reference_id : Option ℕ
  notes_order_id : Option String
deriving DecidableEq, Repr

/-- Database plus side-effect channels threaded through the webhook handler:
the four tables it touches, the webhook idempotency log, the Redis print
queue, and the outbox of WhatsApp messages (recipient, body). -/
structure DBState where
  orders : List Order
  payments : List Payment
  print_jobs : List PrintJob
  webhook_logs : List String
  sessions : List UserSession
  queue : List ℕ
  outbox : List (String × String)
  next_print_job_id : ℕ
deriving DecidableEq, Repr

/-- Return statuses of razorpay_webhook and its event handlers. -/
inductive WebhookResult where
  | already_processed
  | already_paid
  | success (order_id : ℕ) (print_job_id : ℕ)
  | order_not_found
  | missing_payment_link_id
  | ignored
  | noted
deriving DecidableEq, Repr

/-- Order lookup by razorpay_payment_link_id (webhooks.py lines 130-133). -/
def findOrderByLink (orders : List Order) (plid : String) : Option Order :=
  orders.find? (fun o => o.razorpay_payment_link_id = some plid)

/-- Fallback order lookup by primary key (webhooks.py lines 136-146). -/
def findOrderById (orders : List Order) (oid : ℕ) : Option Order :=
  orders.find? (fun o => o.id = oid)

/-- Payment-success message sent by send_payment_confirmation via
twilio_service.msg_payment_success. -/
def msg_payment_success (order_id : ℕ) : String :=
  "Payment received for order " ++ toString order_id

/-- handle_payment_link_paid (webhooks.py lines 102-211): find the order by
payment-link id with a reference-id fallback, stop on a missing link id, a
missing order, or an already PAID order; otherwise mark the Payment SUCCESS
(creating it if absent), mark the order PAID, create a QUEUED PrintJob,
enqueue its id, and send the confirmation message while clearing the
customer session (send_payment_confirmation, lines 243-263). -/
def handle_payment_link_paid (now : ℕ) (st : DBState) (ev : RzpEvent) :
    WebhookResult × DBState :=
  let amount_paid : ℚ := (ev.amount_paise : ℚ) / 100
  match ev.payment_link_id with
  | none => (WebhookResult.missing_payment_link_id, st)
  | some plid =>
      let order? : Option Order :=
        match findOrderByLink st.orders plid with
        | some o => some o
        | none => ev.reference_id.bind (findOrderById st.orders)
      match order? with
      | none => (WebhookResult.order_not_found, st)
      | some order =>
          if order.order_status = OrderStatus.PAID then
            (WebhookResult.already_paid, st)
          else
            let payments1 : List Payment :=
              if (st.payments.find? (fun p => p.order_id = order.id)).isSome then
                st.payments.map (fun p =>
                  if p.order_id = order.id then
                    { p with
                        payment_status := PaymentStatus.SUCCESS
                        provider_reference := ev.razorpay_payment_id
                        paid_at := some now }
                  else p)
              else
                st.payments ++
                  [{ order_id := order.id
                     provider_reference := ev.razorpay_payment_id
                     payment_link_id := some plid
                     payment_status := PaymentStatus.SUCCESS
                     amount := amount_paid
                     paid_at := some now }]
            let orders1 : List Order :=
              st.orders.map (fun o =>
                if o.id = order.id then { o with order_status := OrderStatus.PAID }
                else o)
            let print_job : PrintJob :=
              { id := st.next_print_job_id
                order_id := order.id
                shop_id := order.shop_id
                print_status := PrintStatus.QUEUED
                retry_count := 0
                max_retries := 3
                last_error := none
                printed_at := none }
            let sessions1 : List UserSession :=
              st.sessions.map (fun s =>
                if s.phone = order.customer_phone then clear_session now s else s)
            (WebhookResult.success order.id print_job.id,
             { st with
                 orders := orders1
                 payments := payments1
                 print_jobs := st.print_jobs ++ [print_job]
                 queue := st.queue ++ [print_job.id]
                 sessions := sessions1
                 outbox := st.outbox ++ [(order.customer_phone, msg_payment_success order.id)]
                 next_print_job_id := st.next_print_job_id + 1 })

/-- handle_payment_captured (webhooks.py lines 214-240): a logging fallback
that never mutates state. -/
def handle_payment_captured (st : DBState) (ev : RzpEvent) :
    WebhookResult × DBState :=
  match ev.notes_order_id with
  | none => (WebhookResult.ignored, st)
  | some _ => (WebhookResult.noted, st)

/-- razorpay_webhook (webhooks.py lines 31-99) after successful signature
verification: return already_processed untouched when the derived event id is
already in the webhook log; otherwise dispatch on the event type and append
the event id to the log in the same commit. -/
def razorpay_webhook (now : ℕ) (st : DBState) (ev : RzpEvent) :
    WebhookResult × DBState :=
  if ev.event_id ∈ st.webhook_logs then
    (WebhookResult.already_processed, st)
  else
    let step : WebhookResult × DBState :=
      if ev.event_type = "payment_link.paid" then handle_payment_link_paid now st ev
      else if ev.event_type = "payment.captured" then handle_payment_captured st ev
      else (WebhookResult.ignored, st)
    (step.1, { step.2 with webhook_logs := step.2.webhook_logs ++ [ev.event_id] })

/-- State after n sequential deliveries of the same webhook event. -/
def deliverN (now : ℕ) (ev : RzpEvent) (st : DBState) : ℕ → DBState
  | 0 => st
  | n + 1 => (razorpay_webhook now (deliverN now ev st n) ev).2

/-- Number of print jobs recorded for a given order. -/
def jobCountFor (st : DBState) (order_id : ℕ) : ℕ :=
  (st.print_jobs.filter (fun j => j.order_id = order_id)).length

-- ===========================================================================
-- Concrete fixtures used to instantiate the verified statements
-- ===========================================================================

/-- A session mid-conversation, last active at time 100. -/
def sessC6 : UserSession :=
  { phone := "whatsapp:+911234567890"
    state := ConversationState.AWAITING_COPIES
    draft_order_id := some 7
    temp_file_url := some "http://files/u/doc.pdf"
    temp_file_name := some "doc.pdf"
    temp_file_media_id := some "MExyz"
    temp_print_type := some PrintType.BW
    last_activity := some 100 }

/-- A session waiting for payment on draft order 1. -/
def sessC7 : UserSession :=
  { phone := "whatsapp:+911234567890"
    state := ConversationState.AWAITING_PAYMENT
    draft_order_id := some 1
    temp_file_url := some "http://files/u/doc.pdf"
    temp_file_name := some "doc.pdf"
    temp_file_media_id := some "MExyz"
    temp_print_type := some PrintType.BW
    last_activity := some 100 }

/-- The draft order linked to sessC7, already holding a payment link. -/
def orderC7 : Order :=
  { id := 1
    customer_phone := "whatsapp:+911234567890"
    file_name := some "doc.pdf"
    file_url := some "http://files/u/doc.pdf"
    file_media_id := some "MExyz"
    page_count := 1
    print_type := some PrintType.BW
    copies := 2
    amount := none
    razorpay_payment_link_id := some "plink_1"
    razorpay_payment_link_url := some "http://rzp/plink_1"
    order_status := OrderStatus.PAYMENT_PENDING
    shop_id := some 1 }

/-- A fresh print job with the default retry bookkeeping. -/
def jobC2 : PrintJob :=
  { id := 42, order_id := 1, shop_id := some 1, print_status := PrintStatus.QUEUED
    retry_count := 0, max_retries := 3, last_error := none, printed_at := none }

/-- A failed job eligible for manual retry. -/
def jobC9 : PrintJob :=
  { id := 42, order_id := 1, shop_id := some 1, print_status := PrintStatus.FAILED
    retry_count := 3, max_retries := 3, last_error := some "printer error"
    printed_at := none }

/-- A completed job, used to exercise backward transitions. -/
def jobC10 : PrintJob :=
  { id := 42, order_id := 1, shop_id := some 1, print_status := PrintStatus.COMPLETED
    retry_count := 0, max_retries := 3, last_error := none, printed_at := some 500 }

/-- An order awaiting its payment webhook. -/
def orderW : Order :=
  { id := 1
    customer_phone := "whatsapp:+911234567890"
    file_name := some "doc.pdf"
    file_url := some "http://files/u/doc.pdf"
    file_media_id := some "MExyz"
    page_count := 1
    print_type := some PrintType.BW
    copies := 2
    amount := none
    razorpay_payment_link_id := some "plink_1"
    razorpay_payment_link_url := some "http://rzp/plink_1"
    order_status := OrderStatus.PAYMENT_PENDING
    shop_id := some 1 }

/-- Database state right before the first webhook delivery for orderW. -/
def stW : DBState :=
  { orders := [orderW]
    payments := []
    print_jobs := []
    webhook_logs := []
    sessions := [sessC7]
    queue := []
    outbox := []
    next_print_job_id := 9 }

/-- The payment_link.paid event for orderW. -/
def evW : RzpEvent :=
  { event_id := "evt_1"
    event_type := "payment_link.paid"
    payment_link_id := some "plink_1"
    razorpay_payment_id := some "pay_1"
    amount_paise := 400
    reference_id := none
    notes_order_id := none }

-- ===========================================================================
-- Theorems
-- ===========================================================================

section Theorems

-- --- C6: session expiry on lookup --------------------------------------------

/-- C6: an existing session inactive for strictly more than 30 minutes is
reset on the next get-or-create lookup: state becomes IDLE and every
temporary field and the draft-order reference are cleared, before the message
is processed; a session inactive for 30 minutes or less is returned unchanged
except for its refreshed last-activity timestamp. -/
theorem claim_C6 (now t : ℕ) (session : UserSession)
    (hlast : session.last_activity = some t) :
    (t + 30 * 60 < now →
      get_or_create_session_existing now session =
        { session with
            state := ConversationState.IDLE
            draft_order_id := none
            temp_file_url := none
            temp_file_name := none
            temp_file_media_id := none
            temp_print_type := none
            last_activity := some now }) ∧
    (now ≤ t + 30 * 60 →
      get_or_create_session_existing now session =
        { session with last_activity := some now }) := by
  have hexp : is_session_expired now session = decide (t + 30 * 60 < now) := by
    simp [is_session_expired, hlast, SESSION_TIMEOUT_MINUTES]
  constructor
  · intro h
    simp [get_or_create_session_existing, hexp, h]
  · intro h
    have h2 : ¬(t + 30 * 60 < now) := by omega
    simp [get_or_create_session_existing, hexp, h2]

/-- Witness for C6 at a concrete expired session and a concrete live one. -/
theorem claim_C6_witness :
    (get_or_create_session_existing 2001 sessC6 =
      { sessC6 with
          state := ConversationState.IDLE
          draft_order_id := none
          temp_file_url := none
          temp_file_name := none
          temp_file_media_id := none
          temp_print_type := none
          last_activity := some 2001 }) ∧
    (get_or_create_session_existing 1900 sessC6 =
      { sessC6 with last_activity := some 1900 }) :=
  ⟨(claim_C6 2001 100 sessC6 rfl).1 (by decide),
   (claim_C6 1900 100 sessC6 rfl).2 (by decide)⟩

-- --- C7: cancel in AWAITING_PAYMENT ------------------------------------------

/-- C7 counterexample: in AWAITING_PAYMENT, a "cancel" text clears the
session but performs no mutation of the orders table: the linked draft order
keeps status PAYMENT_PENDING and in particular is not CANCELLED, refuting the
claim that the draft order is cancelled. -/
theorem claim_C7_counterexample :
    process_message 200 sessC7 [orderC7] "cancel" false =
      ProcResult.reply (clear_session 200 sessC7) [orderC7] msg_order_cancelled ∧
    sessC7.draft_order_id = some orderC7.id ∧
    orderC7.order_status = OrderStatus.PAYMENT_PENDING ∧
    orderC7.order_status ≠ OrderStatus.CANCELLED := by
  refine ⟨?_, by decide, by decide, by decide⟩
  decide

/-- C7 (amended): in AWAITING_PAYMENT a cancel/stop/exit text (without media)
clears the session — state becomes IDLE with all temporary fields and the
draft-order reference cleared — and replies with the cancellation message,
while the orders table is left entirely unchanged: the linked draft order is
not cancelled and keeps its previous status. -/
theorem claim_C7 (now : ℕ) (session : UserSession) (orders : List Order)
    (message : String)
    (hstate : session.state = ConversationState.AWAITING_PAYMENT)
    (hmsg : message = "cancel" ∨ message = "stop" ∨ message = "exit") :
    process_message now session orders message false =
      ProcResult.reply (clear_session now session) orders msg_order_cancelled ∧
    (clear_session now session).state = ConversationState.IDLE ∧
    (clear_session now session).draft_order_id = none ∧
    (clear_session now session).temp_file_url = none ∧
    (clear_session now session).temp_file_name = none ∧
    (clear_session now session).temp_file_media_id = none ∧
    (clear_session now session).temp_print_type = none := by
  refine ⟨?_, rfl, rfl, rfl, rfl, rfl, rfl⟩
  rcases hmsg with h | h | h <;> subst h <;> simp [process_message, hstate]

/-- Witness for C7 as amended, at the concrete waiting session. -/
theorem claim_C7_witness :
    process_message 200 sessC7 [orderC7] "stop" false =
      ProcResult.reply (clear_session 200 sessC7) [orderC7] msg_order_cancelled ∧
    (clear_session 200 sessC7).state = ConversationState.IDLE ∧
    (clear_session 200 sessC7).draft_order_id = none ∧
    (clear_session 200 sessC7).temp_file_url = none ∧
    (clear_session 200 sessC7).temp_file_name = none ∧
    (clear_session 200 sessC7).temp_file_media_id = none ∧
    (clear_session 200 sessC7).temp_print_type = none :=
  claim_C7 200 sessC7 [orderC7] "stop" rfl (Or.inr (Or.inl rfl))

-- --- C9: manual retry endpoint -----------------------------------------------

/-- C9: the manual retry endpoint succeeds exactly when the job is FAILED; a
non-FAILED job is rejected with a validation error and nothing is mutated; on
success the job goes back to QUEUED with its error cleared, its id is
re-enqueued, and retry_count is left unchanged. -/
theorem claim_C9 (job : PrintJob) :
    ((∃ r, retry_print_job job = Except.ok r) ↔
      job.print_status = PrintStatus.FAILED) ∧
    (job.print_status = PrintStatus.FAILED →
      retry_print_job job =
        Except.ok ({ job with print_status := PrintStatus.QUEUED, last_error := none },
                   [job.id])) ∧
    (job.print_status ≠ PrintStatus.FAILED →
      retry_print_job job = Except.error "Can only retry FAILED jobs") ∧
    (∀ job1 queued, retry_print_job job = Except.ok (job1, queued) →
      job1.retry_count = job.retry_count ∧ job1.print_status = PrintStatus.QUEUED ∧
        queued = [job.id]) := by
  unfold retry_print_job
  by_cases h : job.print_status = PrintStatus.FAILED <;> simp [h]

/-- Witness for C9 on a concrete FAILED job with retry_count 3: the job is
re-queued and keeps retry_count 3. -/
theorem claim_C9_witness :
    retry_print_job jobC9 =
      Except.ok ({ jobC9 with print_status := PrintStatus.QUEUED, last_error := none },
                 [jobC9.id]) ∧
    ({ jobC9 with print_status := PrintStatus.QUEUED, last_error := none } :
        PrintJob).retry_count = 3 :=
  ⟨(claim_C9 jobC9).2.1 rfl, rfl⟩

-- --- C10: status endpoint enforces no transition order -----------------------

/-- C10: the worker status endpoint accepts any of the four member names
QUEUED, PRINTING, COMPLETED, FAILED (case-insensitively) from any current
status and applies it — including backward moves such as COMPLETED to
PRINTING or QUEUED — and rejects exactly the targets outside those four
names. -/
theorem claim_C10 (now : ℕ) (job : PrintJob) (status_update : String)
    (error_message : Option String) :
    (∀ target, printStatusOfName (pyUpper status_update) = some target →
      ∃ job1 notifs,
        update_print_job_status now job status_update error_message =
          Except.ok (job1, notifs) ∧ job1.print_status = target) ∧
    (printStatusOfName (pyUpper status_update) = none →
      ∃ msg, update_print_job_status now job status_update error_message =
        Except.error msg) := by
  constructor
  · intro target ht
    cases target with
    | QUEUED =>
        refine ⟨{ job with print_status := PrintStatus.QUEUED }, [], ?_, rfl⟩
        simp only [update_print_job_status, ht]
        rfl
    | PRINTING =>
        refine ⟨{ job with print_status := PrintStatus.PRINTING }, [], ?_, rfl⟩
        simp only [update_print_job_status, ht]
        rfl
    | COMPLETED =>
        refine ⟨{ job with print_status := PrintStatus.COMPLETED, printed_at := some now },
                [Notification.printComplete job.order_id], ?_, rfl⟩
        simp only [update_print_job_status, ht]
        rfl
    | FAILED =>
        by_cases hmax : job.max_retries ≤ job.retry_count + 1
        · refine ⟨{ job with
                      print_status := PrintStatus.FAILED
                      last_error := error_message
                      retry_count := job.retry_count + 1 },
                  [Notification.printFailed job.order_id], ?_, rfl⟩
          simp [update_print_job_status, ht, hmax]
        · refine ⟨{ job with
                      print_status := PrintStatus.FAILED
                      last_error := error_message
                      retry_count := job.retry_count + 1 },
                  [], ?_, rfl⟩
          simp [update_print_job_status, ht, hmax]
  · intro h
    refine ⟨"Invalid status: " ++ status_update, ?_⟩
    simp only [update_print_job_status, h]

/-- Witness for C10: a COMPLETED job is moved back to PRINTING by a
lower-case "printing" update, and an unknown name is rejected. -/
theorem claim_C10_witness :
    (∃ job1 notifs,
      update_print_job_status 600 jobC10 "printing" none =
        Except.ok (job1, notifs) ∧ job1.print_status = PrintStatus.PRINTING) ∧
    (∃ msg, update_print_job_status 600 jobC10 "shredded" none =
      Except.error msg) :=
  ⟨(claim_C10 600 jobC10 "printing" none).1 PrintStatus.PRINTING (by decide),
   (claim_C10 600 jobC10 "shredded" none).2 (by decide)⟩

-- --- C3: order finalization --------------------------------------------------

/-- C3: finalize_with_payment_link fails (raising, with no order mutation)
exactly when the order is not DRAFT or its amount is missing or not strictly
positive; on success the order carries the returned payment-link id and url,
moves to PAYMENT_PENDING, and a Payment row in INITIATED status is created
for the order with the order amount. -/
theorem claim_C3 (order : Order) (payment_url payment_link_id : String) :
    ((order.order_status ≠ OrderStatus.DRAFT ∨ order.amount = none ∨
        (∃ a, order.amount = some a ∧ a ≤ 0)) →
      ∃ msg, finalize_order_with_payment_link order payment_url payment_link_id =
        Except.error msg) ∧
    (∀ a, order.order_status = OrderStatus.DRAFT → order.amount = some a → 0 < a →
      finalize_order_with_payment_link order payment_url payment_link_id =
        Except.ok
          ({ order with
              razorpay_payment_link_id := some payment_link_id
              razorpay_payment_link_url := some payment_url
              order_status := OrderStatus.PAYMENT_PENDING },
           { order_id := order.id
             provider_reference := none
             payment_link_id := some payment_link_id
             payment_status := PaymentStatus.INITIATED
             amount := a
             paid_at := none })) := by
  constructor
  · intro h
    unfold finalize_order_with_payment_link
    rcases h with h | h | ⟨a, ha, hle⟩
    · rw [if_pos h]
      exact ⟨_, rfl⟩
    · by_cases hd : order.order_status ≠ OrderStatus.DRAFT
      · rw [if_pos hd]; exact ⟨_, rfl⟩
      · rw [if_neg hd, h]; exact ⟨_, rfl⟩
    · by_cases hd : order.order_status ≠ OrderStatus.DRAFT
      · rw [if_pos hd]; exact ⟨_, rfl⟩
      · refine ⟨"Order has invalid amount", ?_⟩
        rw [if_neg hd, ha]
        simp [hle]
  · intro a hd ha hpos
    unfold finalize_order_with_payment_link
    rw [if_neg (by simp [hd]), ha]
    simp [not_le.mpr hpos]

/-- Witness for C3: a rejected non-DRAFT order and an accepted draft. -/
theorem claim_C3_witness :
    (∃ msg, finalize_order_with_payment_link orderC7 "http://rzp/p2" "plink_2" =
      Except.error msg) ∧
    finalize_order_with_payment_link
        { orderC7 with order_status := OrderStatus.DRAFT, amount := some 4 }
        "http://rzp/p2" "plink_2" =
      Except.ok
        ({ { orderC7 with order_status := OrderStatus.DRAFT, amount := some 4 } with
            razorpay_payment_link_id := some "plink_2"
            razorpay_payment_link_url := some "http://rzp/p2"
            order_status := OrderStatus.PAYMENT_PENDING },
         { order_id := orderC7.id
           provider_reference := none
           payment_link_id := some "plink_2"
           payment_status := PaymentStatus.INITIATED
           amount := 4
           paid_at := none }) :=
  ⟨(claim_C3 orderC7 "http://rzp/p2" "plink_2").1 (Or.inl (by decide)),
   (claim_C3 { orderC7 with order_status := OrderStatus.DRAFT, amount := some 4 }
       "http://rzp/p2" "plink_2").2 4 rfl rfl (by norm_num)⟩

-- --- C2: failure notifications and the retry counter -------------------------

/-- Evaluation of the status endpoint on a FAILED report: the retry counter
increments, the error is recorded, and the failure notification is sent
exactly when the incremented counter has reached max_retries. -/
theorem update_failed_eq (now : ℕ) (j : PrintJob) :
    update_print_job_status now j "FAILED" (some "printer error") =
      Except.ok
        ({ j with
            print_status := PrintStatus.FAILED
            last_error := some "printer error"
            retry_count := j.retry_count + 1 },
         if j.max_retries ≤ j.retry_count + 1 then
           [Notification.printFailed j.order_id]
         else []) := by
  have h : printStatusOfName (pyUpper "FAILED") = some PrintStatus.FAILED := by decide
  simp only [update_print_job_status, h]
  by_cases hmax : j.max_retries ≤ j.retry_count + 1 <;> simp [hmax]

/-- Job state after n consecutive FAILED reports: status FAILED (once n is
positive), last error recorded, retry counter grown by n. -/
theorem reportFailedN_job (now : ℕ) (job : PrintJob) :
    ∀ n, (reportFailedN now job n).1 =
      if n = 0 then job else
        { job with
            print_status := PrintStatus.FAILED
            last_error := some "printer error"
            retry_count := job.retry_count + n } := by
  intro n
  induction n with
  | zero => rfl
  | succ n ih =>
      simp only [reportFailedN, update_failed_eq]
      rw [ih]
      by_cases hn : n = 0 <;> simp [hn, Nat.add_assoc]

/-- Number of failure notifications after n consecutive FAILED reports on a
fresh job with max_retries 3: none for the first two reports, one at the
third, and one more for every further report. -/
theorem reportFailedN_len (now : ℕ) (job : PrintJob) (h0 : job.retry_count = 0)
    (h3 : job.max_retries = 3) :
    ∀ n, (reportFailedN now job n).2.length = n - 2 := by
  intro n
  induction n with
  | zero => rfl
  | succ n ih =>
      have hj := reportFailedN_job now job n
      simp only [reportFailedN, update_failed_eq, List.length_append, ih, hj]
      by_cases hn : n = 0
      · subst hn
        simp [h0, h3]
      · rw [if_neg hn]
        dsimp only
        rw [h0, h3]
        split <;> simp only [List.length_singleton, List.length_nil] <;> omega

/-- C2 counterexample: on a fresh job with max_retries 3, three consecutive
FAILED reports send exactly one failure notification, but a fourth FAILED
report on the same job sends a second one, refuting the claim that later
FAILED reports emit no additional notification. -/
theorem claim_C2_counterexample :
    (reportFailedN 700 jobC2 3).2 = [Notification.printFailed 1] ∧
    (reportFailedN 700 jobC2 4).2 =
      [Notification.printFailed 1, Notification.printFailed 1] := by
  decide

/-- C2 (amended): for a job with retry_count 0 and max_retries 3, a run of n
consecutive FAILED reports sends exactly n - 2 failure notifications (so none
before the retry count reaches max_retries and exactly one when it does), but
every FAILED report after the third sends one further notification instead of
staying silent. -/
theorem claim_C2 (now : ℕ) (job : PrintJob) (h0 : job.retry_count = 0)
    (h3 : job.max_retries = 3) (n : ℕ) :
    (reportFailedN now job n).2.length = n - 2 :=
  reportFailedN_len now job h0 h3 n

/-- Witness for C2 as amended at n = 2, 3, 4 on a concrete fresh job. -/
theorem claim_C2_witness :
    (reportFailedN 700 jobC2 2).2.length = 0 ∧
    (reportFailedN 700 jobC2 3).2.length = 1 ∧
    (reportFailedN 700 jobC2 4).2.length = 2 :=
  ⟨claim_C2 700 jobC2 rfl rfl 2, claim_C2 700 jobC2 rfl rfl 3,
   claim_C2 700 jobC2 rfl rfl 4⟩

-- --- C8: copies parsing ------------------------------------------------------

/-- Decimal digit characters have code points between 48 and 57. -/
theorem digit_toNat_bounds (c : Char) (h : c.isDigit = true) :
    48 ≤ c.toNat ∧ c.toNat ≤ 57 := by
  simp [Char.isDigit] at h
  exact ⟨h.1, h.2⟩

/-- Digits are untouched by ASCII lower-casing. -/
theorem toLower_digit (c : Char) (h : c.isDigit = true) : c.toLower = c := by
  have hb := digit_toNat_bounds c h
  unfold Char.toLower
  rw [if_neg]
  omega

/-- Digits are not stripped as whitespace. -/
theorem isPyWS_digit (c : Char) (h : c.isDigit = true) : isPyWS c = false := by
  have hb := digit_toNat_bounds c h
  simp only [isPyWS, Bool.or_eq_false_iff]
  refine ⟨⟨⟨?_, ?_⟩, ?_⟩, ?_⟩ <;>
    · simp only [decide_eq_false_iff_not]
      intro he
      subst he
      simp at hb

/-- Stripping a list with no whitespace characters is the identity. -/
theorem pyStripL_no_ws {l : List Char} (h : ∀ c ∈ l, isPyWS c = false) :
    pyStripL l = l := by
  have h1 : ∀ m : List Char, (∀ c ∈ m, isPyWS c = false) → m.dropWhile isPyWS = m := by
    intro m hm
    cases m with
    | nil => rfl
    | cons c t => rw [List.dropWhile_cons, hm c (List.mem_cons_self c t)]; simp
  unfold pyStripL
  rw [h1 l h, h1 l.reverse (fun c hc => h c (List.mem_reverse.mp hc)),
    List.reverse_reverse]

/-- Lower-casing an all-digit character list is the identity. -/
theorem map_toLower_digits {l : List Char} (h : l.all Char.isDigit = true) :
    l.map Char.toLower = l := by
  induction l with
  | nil => rfl
  | cons c t ih =>
      simp only [List.all_cons, Bool.and_eq_true] at h
      simp [toLower_digit c h.1, ih h.2]

/-- An all-digit string is none of the spelled number words. -/
theorem word_lookup_digits {l : List Char} (h : l.all Char.isDigit = true) :
    word_to_num.lookup (⟨l⟩ : String) = none := by
  have hne : ∀ w : String, w.data.all Char.isDigit = false →
      ((⟨l⟩ : String) == w) = false := by
    intro w hw
    rw [beq_eq_false_iff_ne]
    intro he
    rw [← he] at hw
    have hd : (String.mk l).data = l := rfl
    rw [hd, h] at hw
    exact absurd hw (by simp)
  simp only [word_to_num, List.lookup, hne "one" (by decide), hne "two" (by decide),
    hne "three" (by decide), hne "four" (by decide), hne "five" (by decide),
    hne "six" (by decide), hne "seven" (by decide), hne "eight" (by decide),
    hne "nine" (by decide), hne "ten" (by decide)]

/-- Nonempty all-digit lists pass the int-literal digit shape check. -/
theorem intDigitsShape_digits :
    ∀ l : List Char, l ≠ [] → l.all Char.isDigit = true → intDigitsShape l = true := by
  intro l
  induction l with
  | nil => intro hne; exact absurd rfl hne
  | cons c t ih =>
      intro _ h
      simp only [List.all_cons, Bool.and_eq_true] at h
      cases t with
      | nil => simp [intDigitsShape, h.1]
      | cons d rest =>
          have hd : ¬(d = '_') := by
            intro he
            have h2 := h.2
            simp only [List.all_cons, Bool.and_eq_true] at h2
            rw [he] at h2
            exact absurd h2.1 (by decide)
          simp only [intDigitsShape, h.1, if_neg hd, Bool.true_and]
          exact ih (by simp) h.2

/-- Python int() on an all-digit string returns its decimal value. -/
theorem pyIntParse_digits {l : List Char} (hne : l ≠ []) (h : l.all Char.isDigit = true) :
    pyIntParse ⟨l⟩ = some ((digitsVal l : ℕ) : ℤ) := by
  have hall : ∀ c ∈ l, c.isDigit = true := by
    intro c hc
    exact List.all_eq_true.mp h c hc
  have hstrip : pyStripL l = l :=
    pyStripL_no_ws (fun c hc => isPyWS_digit c (hall c hc))
  have hdata : (⟨l⟩ : String).data = l := rfl
  unfold pyIntParse
  rw [hdata, hstrip]
  cases l with
  | nil => exact absurd rfl hne
  | cons c t =>
      have hc : c.isDigit = true := hall c (List.mem_cons_self c t)
      have hplus : ¬(c = '+') := by
        intro he; rw [he] at hc; exact absurd hc (by decide)
      have hminus : ¬(c = '-') := by
        intro he; rw [he] at hc; exact absurd hc (by decide)
      have hfil : (c :: t).filter (fun d => decide ¬(d = '_')) = c :: t := by
        rw [List.filter_eq_self]
        intro a ha
        have : a.isDigit = true := hall a ha
        simp only [decide_eq_true_eq]
        intro he; rw [he] at this; exact absurd this (by decide)
      simp only [if_neg hplus, if_neg hminus,
        intDigitsShape_digits (c :: t) (by simp) h, if_true, hfil]
      simp

/-- parse_copies_input on an all-digit string applies only the 1..100 range
check to its decimal value. -/
theorem parse_copies_digits {l : List Char} (hne : l ≠ []) (h : l.all Char.isDigit = true) :
    parse_copies_input ⟨l⟩ =
      if 1 ≤ digitsVal l ∧ digitsVal l ≤ 100 then some (digitsVal l) else none := by
  have hall : ∀ c ∈ l, c.isDigit = true := by
    intro c hc
    exact List.all_eq_true.mp h c hc
  have hstrip : pyStrip ⟨l⟩ = ⟨l⟩ := by
    unfold pyStrip
    rw [show (⟨l⟩ : String).data = l from rfl,
      pyStripL_no_ws (fun c hc => isPyWS_digit c (hall c hc))]
  have hlower : pyLower ⟨l⟩ = ⟨l⟩ := by
    unfold pyLower
    rw [show (⟨l⟩ : String).data = l from rfl, map_toLower_digits h]
  simp only [parse_copies_input]
  rw [hstrip, hlower, word_lookup_digits h, pyIntParse_digits hne h]
  dsimp only
  by_cases hr : 1 ≤ digitsVal l ∧ digitsVal l ≤ 100
  · rw [if_pos (by exact_mod_cast hr), if_pos hr, Int.toNat_natCast]
  · rw [if_neg (by exact_mod_cast hr), if_neg hr]

/-- The parser only ever returns values in the 1..100 range. -/
theorem parse_copies_range (s : String) (n : ℕ) (h : parse_copies_input s = some n) :
    1 ≤ n ∧ n ≤ 100 := by
  simp only [parse_copies_input] at h
  rcases hL : word_to_num.lookup (pyLower (pyStrip s)) with _ | k
  · rw [hL] at h
    rcases hP : pyIntParse (pyStrip s) with _ | c
    · rw [hP] at h
      cases h
    · rw [hP] at h
      dsimp only at h
      by_cases hr : 1 ≤ c ∧ c ≤ 100
      · rw [if_pos hr] at h
        injection h with h
        omega
      · rw [if_neg hr] at h
        cases h
  · rw [hL] at h
    dsimp only at h
    by_cases hr : 1 ≤ (k : ℤ) ∧ (k : ℤ) ≤ 100
    · rw [if_pos hr] at h
      injection h with h
      omega
    · rw [if_neg hr] at h
      cases h

/-- C8 counterexample: the copies parser also accepts "+5", which is neither
a digit string nor a spelled number one..ten, refuting the claim that exactly
digit strings and the ten spelled numbers are accepted. -/
theorem claim_C8_counterexample :
    parse_copies_input "+5" = some 5 ∧
    "+5".data.all Char.isDigit = false ∧
    word_to_num.lookup (pyLower (pyStrip "+5")) = none := by
  decide

/-- C8 (amended): every accepted copies input has value 1..100 and a rejected
input in AWAITING_COPIES leaves the session unchanged with the re-prompt; the
accepted inputs are the Python int() literals — digit strings, which are
accepted exactly when their value is in 1..100, but also forms with a leading
sign or underscore grouping such as "+5" and "1_0" — together with the ten
spelled numbers one..ten. -/
theorem claim_C8 :
    (∀ s n, parse_copies_input s = some n → 1 ≤ n ∧ n ≤ 100) ∧
    (∀ l : List Char, l ≠ [] → l.all Char.isDigit = true →
      parse_copies_input ⟨l⟩ =
        if 1 ≤ digitsVal l ∧ digitsVal l ≤ 100 then some (digitsVal l) else none) ∧
    (∀ p ∈ word_to_num, parse_copies_input p.1 = some p.2) ∧
    (parse_copies_input "+5" = some 5 ∧ parse_copies_input "1_0" = some 10 ∧
      parse_copies_input "-5" = none ∧ parse_copies_input "101" = none ∧
      parse_copies_input "0" = none ∧ parse_copies_input "TEN" = some 10) ∧
    (∀ now session orders s, session.state = ConversationState.AWAITING_COPIES →
      parse_copies_input s = none →
      process_message now session orders s false =
        ProcResult.reply session orders msg_invalid_copies) := by
  refine ⟨parse_copies_range, fun l => parse_copies_digits, by decide, by decide,
    ?_⟩
  intro now session orders s hstate hnone
  simp [process_message, hstate, hnone]

/-- Field-level evaluation of handle_payment_link_paid on the success path:
the result status, the order update, the created print job, and the untouched
webhook log. -/
theorem handle_paid_fields (now : ℕ) (st : DBState) (ev : RzpEvent) (plid : String)
    (order : Order)
    (hplid : ev.payment_link_id = some plid)
    (hfind : findOrderByLink st.orders plid = some order)
    (hnotpaid : order.order_status ≠ OrderStatus.PAID) :
    (handle_payment_link_paid now st ev).1 =
        WebhookResult.success order.id st.next_print_job_id ∧
    (handle_payment_link_paid now st ev).2.orders =
        st.orders.map (fun o =>
          if o.id = order.id then { o with order_status := OrderStatus.PAID } else o) ∧
    (handle_payment_link_paid now st ev).2.print_jobs =
        st.print_jobs ++
          [{ id := st.next_print_job_id
             order_id := order.id
             shop_id := order.shop_id
             print_status := PrintStatus.QUEUED
             retry_count := 0
             max_retries := 3
             last_error := none
             printed_at := none }] ∧
    (handle_payment_link_paid now st ev).2.webhook_logs = st.webhook_logs := by
  refine ⟨?_, ?_, ?_, ?_⟩ <;>
    · simp only [handle_payment_link_paid, hplid, hfind, if_neg hnotpaid]

/-- Evaluation of razorpay_webhook on an unseen payment_link.paid event: it
runs the paid handler and appends the event id to the webhook log. -/
theorem razorpay_webhook_fresh (now : ℕ) (st : DBState) (ev : RzpEvent)
    (htype : ev.event_type = "payment_link.paid")
    (hlog : ev.event_id ∉ st.webhook_logs) :
    razorpay_webhook now st ev =
      ((handle_payment_link_paid now st ev).1,
       { (handle_payment_link_paid now st ev).2 with
           webhook_logs :=
             (handle_payment_link_paid now st ev).2.webhook_logs ++ [ev.event_id] }) := by
  simp only [razorpay_webhook, if_neg hlog, htype, if_pos]

/-- Evaluation of razorpay_webhook on an already-logged event id: the reply
is already_processed and the state is untouched. -/
theorem razorpay_webhook_seen (now : ℕ) (st : DBState) (ev : RzpEvent)
    (h : ev.event_id ∈ st.webhook_logs) :
    razorpay_webhook now st ev = (WebhookResult.already_processed, st) := by
  simp only [razorpay_webhook, if_pos h]

/-- C1: delivering the same payment_link.paid event (same derived event id,
same body) N >= 1 times to the webhook handler transitions the matching order
to PAID exactly once and creates exactly one PrintJob row for it; every
delivery after the first returns already_processed and leaves the state
completely unchanged. -/
theorem claim_C1 (now : ℕ) (st : DBState) (ev : RzpEvent) (plid : String)
    (order : Order)
    (htype : ev.event_type = "payment_link.paid")
    (hlog : ev.event_id ∉ st.webhook_logs)
    (hplid : ev.payment_link_id = some plid)
    (hfind : findOrderByLink st.orders plid = some order)
    (hnotpaid : order.order_status ≠ OrderStatus.PAID)
    (hjobs : jobCountFor st order.id = 0) :
    (razorpay_webhook now st ev).1 =
        WebhookResult.success order.id st.next_print_job_id ∧
    (∀ o ∈ (razorpay_webhook now st ev).2.orders,
        o.id = order.id → o.order_status = OrderStatus.PAID) ∧
    jobCountFor (razorpay_webhook now st ev).2 order.id = 1 ∧
    razorpay_webhook now (razorpay_webhook now st ev).2 ev =
        (WebhookResult.already_processed, (razorpay_webhook now st ev).2) ∧
    (∀ n, 1 ≤ n → deliverN now ev st n = (razorpay_webhook now st ev).2) := by
  obtain ⟨hres, horders, hpjobs, hlogs⟩ :=
    handle_paid_fields now st ev plid order hplid hfind hnotpaid
  have hwh := razorpay_webhook_fresh now st ev htype hlog
  have hst1orders : (razorpay_webhook now st ev).2.orders =
      st.orders.map (fun o =>
        if o.id = order.id then { o with order_status := OrderStatus.PAID } else o) := by
    rw [hwh]
    exact horders
  have hst1jobs : (razorpay_webhook now st ev).2.print_jobs =
      st.print_jobs ++
        [{ id := st.next_print_job_id
           order_id := order.id
           shop_id := order.shop_id
           print_status := PrintStatus.QUEUED
           retry_count := 0
           max_retries := 3
           last_error := none
           printed_at := none }] := by
    rw [hwh]
    exact hpjobs
  have hst1logs : (razorpay_webhook now st ev).2.webhook_logs =
      st.webhook_logs ++ [ev.event_id] := by
    rw [hwh, hlogs]
  have hmem : ev.event_id ∈ (razorpay_webhook now st ev).2.webhook_logs := by
    rw [hst1logs]
    exact List.mem_append_right _ (List.mem_singleton.mpr rfl)
  have hagain : razorpay_webhook now (razorpay_webhook now st ev).2 ev =
      (WebhookResult.already_processed, (razorpay_webhook now st ev).2) :=
    razorpay_webhook_seen now _ ev hmem
  refine ⟨?_, ?_, ?_, hagain, ?_⟩
  · rw [hwh]
    exact hres
  · intro o ho hid
    rw [hst1orders] at ho
    obtain ⟨o', ho', hfo⟩ := List.mem_map.mp ho
    by_cases hcase : o'.id = order.id
    · rw [if_pos hcase] at hfo
      rw [← hfo]
    · rw [if_neg hcase] at hfo
      rw [← hfo] at hid
      exact absurd hid hcase
  · unfold jobCountFor
    rw [hst1jobs, List.filter_append]
    unfold jobCountFor at hjobs
    simp [hjobs]
  · intro n hn
    induction n with
    | zero => omega
    | succ m ih =>
        by_cases hm : m = 0
        · subst hm
          rfl
        · have hdel : deliverN now ev st m = (razorpay_webhook now st ev).2 :=
            ih (by omega)
          show (razorpay_webhook now (deliverN now ev st m) ev).2 =
            (razorpay_webhook now st ev).2
          rw [hdel, hagain]

/-- Witness for C1: the concrete event evW delivered five times against stW
pays order 1 exactly once, creates print job 9 once, and every re-delivery is
a no-op. -/
theorem claim_C1_witness :
    (razorpay_webhook 900 stW evW).1 = WebhookResult.success 1 9 ∧
    (∀ o ∈ (razorpay_webhook 900 stW evW).2.orders,
        o.id = 1 → o.order_status = OrderStatus.PAID) ∧
    jobCountFor (razorpay_webhook 900 stW evW).2 1 = 1 ∧
    razorpay_webhook 900 (razorpay_webhook 900 stW evW).2 evW =
        (WebhookResult.already_processed, (razorpay_webhook 900 stW evW).2) ∧
    deliverN 900 evW stW 5 = (razorpay_webhook 900 stW evW).2 := by
  have h := claim_C1 900 stW evW "plink_1" orderW rfl (by decide) rfl rfl
    (by decide) rfl
  exact ⟨h.1, h.2.1, h.2.2.1, h.2.2.2.1, h.2.2.2.2 5 (by decide)⟩

/-- Witness for C8 as amended at concrete inputs. -/
theorem claim_C8_witness :
    (1 ≤ 42 ∧ 42 ≤ 100) ∧
    parse_copies_input ⟨['0', '0', '7']⟩ = some 7 ∧
    process_message 0 sessC6 [] "9999" false =
      ProcResult.reply sessC6 [] msg_invalid_copies := by
  refine ⟨claim_C8.1 "42" 42 (by decide), ?_, ?_⟩
  · rw [claim_C8.2.1 ['0', '0', '7'] (by decide) (by decide)]
    decide
  · exact claim_C8.2.2.2.2 0 sessC6 [] "9999" rfl (by decide)

-- --- C4 and C5: pricing arithmetic -------------------------------------------

/-- Half-even rounding fixes integers. -/
theorem roundHalfEvenQ_intCast (z : ℤ) : roundHalfEvenQ (z : ℚ) = z := by
  norm_num [roundHalfEvenQ, Int.floor_intCast]

/-- Naturals below 2^53 are exactly representable in binary64. -/
theorem toDouble_natCast (n : ℕ) (h0 : 0 < n) (h53 : n < 2 ^ 53) :
    toDouble (n : ℚ) = n := by
  have hne : (n : ℚ) ≠ 0 := Nat.cast_ne_zero.mpr h0.ne'
  have hnonneg : ¬((n : ℚ) < 0) := not_lt.mpr (Nat.cast_nonneg n)
  have habs : |(n : ℚ)| = n := abs_of_nonneg (Nat.cast_nonneg n)
  have hL : Nat.log 2 n ≤ 52 := by
    have := Nat.log_lt_of_lt_pow h0.ne' h53
    omega
  simp only [toDouble, if_neg hne, if_neg hnonneg, habs, Int.log_natCast]
  rw [show (52 : ℤ) - (Nat.log 2 n : ℤ) = ((52 - Nat.log 2 n : ℕ) : ℤ) by omega,
    zpow_natCast]
  rw [show (n : ℚ) * 2 ^ (52 - Nat.log 2 n) = ((n * 2 ^ (52 - Nat.log 2 n) : ℕ) : ℤ) by
    push_cast; ring]
  rw [roundHalfEvenQ_intCast]
  rw [show ((Nat.log 2 n : ℤ) - 52) = -(((52 - Nat.log 2 n : ℕ)) : ℤ) by omega,
    zpow_neg, zpow_natCast]
  push_cast
  rw [one_mul, mul_assoc, mul_inv_cancel₀ (pow_ne_zero _ two_ne_zero), mul_one]

/-- Rounding a whole number of currency units to 2 decimals is the identity. -/
theorem pyRound2_natCast (k : ℕ) : pyRound2 (k : ℚ) = k := by
  unfold pyRound2
  rw [show ((k : ℚ) * 100) = (((k * 100 : ℕ) : ℤ) : ℚ) by push_cast; ring,
    roundHalfEvenQ_intCast]
  push_cast
  field_simp

/-- Exactness of the full float pipeline on a product of naturals: for
m below 2^53 the stored price of an m-unit total is exactly m. -/
theorem toDouble_mul_natCast (n k : ℕ) (h0 : 0 < n * k) (h53 : n * k < 2 ^ 53)
    (hn : 0 < n) (hn53 : n < 2 ^ 53) :
    toDouble (toDouble (n : ℚ) * (k : ℚ)) = ((n * k : ℕ) : ℚ) := by
  rw [toDouble_natCast n hn hn53,
    show ((n : ℚ) * (k : ℚ)) = ((n * k : ℕ) : ℚ) by push_cast; ring,
    toDouble_natCast _ h0 h53]

/-- C5: with the configured per-page rates, price(BOTH, c, p) equals
price(BW, c, p) + price(COLOR, c, p) for all valid copies counts (1..100)
and page counts (bounded by 10^6, far beyond any printable document). -/
theorem claim_C5 (c p : ℕ) (h1 : 1 ≤ c) (h2 : c ≤ 100) (h3 : 1 ≤ p)
    (h4 : p ≤ 1000000) :
    calculate_price PrintType.BOTH c p none none =
      calculate_price PrintType.BW c p none none +
        calculate_price PrintType.COLOR c p none none := by
  have hb : p * c ≤ 100000000 := by
    calc p * c ≤ 1000000 * 100 := Nat.mul_le_mul h4 h2
    _ = 100000000 := by norm_num
  have hlit : (100000000 : ℕ) < 2 ^ 53 := by norm_num
  have hn0 : 0 < p * c := Nat.mul_pos (by omega) (by omega)
  have e2 : toDouble (toDouble ((p * c : ℕ) : ℚ) * (2 : ℚ)) = ((p * c * 2 : ℕ) : ℚ) := by
    have := toDouble_mul_natCast (p * c) 2 (by omega) (by omega) hn0 (by omega)
    simpa using this
  have e10 : toDouble (toDouble ((p * c : ℕ) : ℚ) * (10 : ℚ)) =
      ((p * c * 10 : ℕ) : ℚ) := by
    have := toDouble_mul_natCast (p * c) 10 (by omega) (by omega) hn0 (by omega)
    simpa using this
  have e12s : toDouble ((2 : ℚ) + 10) = 12 := by
    have := toDouble_natCast 12 (by norm_num) (by norm_num)
    rw [show (((12 : ℕ)) : ℚ) = ((2 : ℚ) + 10) by norm_num] at this
    rw [this]
    norm_num
  have e12 : toDouble (toDouble ((p * c : ℕ) : ℚ) * (12 : ℚ)) =
      ((p * c * 12 : ℕ) : ℚ) := by
    have := toDouble_mul_natCast (p * c) 12 (by omega) (by omega) hn0 (by omega)
    simpa using this
  simp only [calculate_price, pyOrDefault, PRICE_PER_PAGE_BW, PRICE_PER_PAGE_COLOR]
  rw [e12s, e2, e10, e12, pyRound2_natCast, pyRound2_natCast, pyRound2_natCast]
  push_cast
  ring

/-- Witness for C5 at copies 3, pages 5. -/
theorem claim_C5_witness :
    calculate_price PrintType.BOTH 3 5 none none =
      calculate_price PrintType.BW 3 5 none none +
        calculate_price PrintType.COLOR 3 5 none none :=
  claim_C5 3 5 (by norm_num) (by norm_num) (by norm_num) (by norm_num)

/-- C4 (amended): the stored amount is computed through Python binary
floating point and only converted to Decimal at the end; nevertheless, for
the default configured rates (2.0 and 10.0, both exactly representable in
binary64) and all valid copies (1..100) and page counts (up to 10^6), every
float operation is exact, so the stored Decimal equals the exact rational
page_count x copies x rate rounded to 2 decimals.  For a configured rate
that is not exactly representable, such as 2.675, the stored amount can
differ from currency-safe decimal arithmetic (see the counterexample). -/
theorem claim_C4 (pt : PrintType) (c p : ℕ) (h1 : 1 ≤ c) (h2 : c ≤ 100)
    (h3 : 1 ≤ p) (h4 : p ≤ 1000000) :
    calculate_price pt c p none none =
      calculate_price_decimal_spec pt c p PRICE_PER_PAGE_BW PRICE_PER_PAGE_COLOR := by
  have hb : p * c ≤ 100000000 := by
    calc p * c ≤ 1000000 * 100 := Nat.mul_le_mul h4 h2
    _ = 100000000 := by norm_num
  have hlit : (100000000 : ℕ) < 2 ^ 53 := by norm_num
  have hn0 : 0 < p * c := Nat.mul_pos (by omega) (by omega)
  have e2 : toDouble (toDouble ((p * c : ℕ) : ℚ) * (2 : ℚ)) = ((p * c * 2 : ℕ) : ℚ) := by
    have := toDouble_mul_natCast (p * c) 2 (by omega) (by omega) hn0 (by omega)
    simpa using this
  have e10 : toDouble (toDouble ((p * c : ℕ) : ℚ) * (10 : ℚ)) =
      ((p * c * 10 : ℕ) : ℚ) := by
    have := toDouble_mul_natCast (p * c) 10 (by omega) (by omega) hn0 (by omega)
    simpa using this
  have e12s : toDouble ((2 : ℚ) + 10) = 12 := by
    have := toDouble_natCast 12 (by norm_num) (by norm_num)
    rw [show (((12 : ℕ)) : ℚ) = ((2 : ℚ) + 10) by norm_num] at this
    rw [this]
    norm_num
  have e12 : toDouble (toDouble ((p * c : ℕ) : ℚ) * (12 : ℚ)) =
      ((p * c * 12 : ℕ) : ℚ) := by
    have := toDouble_mul_natCast (p * c) 12 (by omega) (by omega) hn0 (by omega)
    simpa using this
  cases pt
  · simp only [calculate_price, calculate_price_decimal_spec, pyOrDefault,
      PRICE_PER_PAGE_BW, PRICE_PER_PAGE_COLOR]
    rw [e10, pyRound2_natCast,
      show ((p : ℚ) * (c : ℚ) * 10) = ((p * c * 10 : ℕ) : ℚ) by push_cast; ring,
      pyRound2_natCast]
  · simp only [calculate_price, calculate_price_decimal_spec, pyOrDefault,
      PRICE_PER_PAGE_BW, PRICE_PER_PAGE_COLOR]
    rw [e2, pyRound2_natCast,
      show ((p : ℚ) * (c : ℚ) * 2) = ((p * c * 2 : ℕ) : ℚ) by push_cast; ring,
      pyRound2_natCast]
  · simp only [calculate_price, calculate_price_decimal_spec, pyOrDefault,
      PRICE_PER_PAGE_BW, PRICE_PER_PAGE_COLOR]
    rw [e12s, e12, pyRound2_natCast,
      show ((p : ℚ) * (c : ℚ) * (2 + 10)) = ((p * c * 12 : ℕ) : ℚ) by push_cast; ring,
      pyRound2_natCast]

/-- Half-even rounding evaluates through the floor when the fraction is
below one half. -/
theorem roundHalfEvenQ_eq_of_lt (x : ℚ) (z : ℤ) (hfl : ⌊x⌋ = z)
    (hr : x - z < 1 / 2) : roundHalfEvenQ x = z := by
  simp only [roundHalfEvenQ, hfl, if_pos hr]

/-- Half-even rounding sends an exact tie above an odd floor. -/
theorem roundHalfEvenQ_eq_tie_odd (x : ℚ) (z : ℤ) (hfl : ⌊x⌋ = z)
    (hr : x - z = 1 / 2) (hodd : ¬(2 ∣ z)) : roundHalfEvenQ x = z + 1 := by
  simp only [roundHalfEvenQ, hfl]
  rw [hr, if_neg (by norm_num), if_neg (by norm_num), if_neg hodd]

/-- Value of the binary64 double nearest to the decimal 2.675: it lies just
below, at 6023564501608038 / 2^51 = 2.67499999999999982236...; this is the
float that CPython produces for the literal 2.675. -/
theorem td_2675 : toDouble (2675 / 1000 : ℚ) = 6023564501608038 / 2 ^ 51 := by
  have hne : (2675 / 1000 : ℚ) ≠ 0 := by norm_num
  have hnonneg : ¬((2675 / 1000 : ℚ) < 0) := by norm_num
  have habs : |(2675 / 1000 : ℚ)| = 2675 / 1000 := abs_of_pos (by norm_num)
  have hlog : Int.log 2 (2675 / 1000 : ℚ) = 1 := by
    rw [Int.log_of_one_le_right _ (by norm_num)]
    have hf : ⌊(2675 / 1000 : ℚ)⌋₊ = 2 := by
      rw [Nat.floor_eq_iff (by norm_num)]
      constructor <;> norm_num
    have hl : Nat.log 2 2 = 1 :=
      Nat.log_eq_of_pow_le_of_lt_pow (by norm_num) (by norm_num)
    rw [hf, hl]
    norm_num
  simp only [toDouble, if_neg hne, if_neg hnonneg, habs, hlog]
  rw [show ((52 : ℤ) - 1) = ((51 : ℕ) : ℤ) by norm_num, zpow_natCast]
  rw [roundHalfEvenQ_eq_of_lt ((2675 / 1000 : ℚ) * 2 ^ (51 : ℕ)) 6023564501608038
    (by rw [Int.floor_eq_iff]; constructor <;> norm_num) (by norm_num)]
  rw [show ((1 : ℤ) - 52) = -(((51 : ℕ)) : ℤ) by norm_num, zpow_neg, zpow_natCast]
  norm_num

/-- The double 6023564501608038 / 2^51 is a fixed point of toDouble. -/
theorem td_idem_2675 :
    toDouble (6023564501608038 / 2 ^ 51 : ℚ) = 6023564501608038 / 2 ^ 51 := by
  have hne : (6023564501608038 / 2 ^ 51 : ℚ) ≠ 0 := by norm_num
  have hnonneg : ¬((6023564501608038 / 2 ^ 51 : ℚ) < 0) := by norm_num
  have habs : |(6023564501608038 / 2 ^ 51 : ℚ)| = 6023564501608038 / 2 ^ 51 :=
    abs_of_pos (by norm_num)
  have hlog : Int.log 2 (6023564501608038 / 2 ^ 51 : ℚ) = 1 := by
    rw [Int.log_of_one_le_right _ (by norm_num)]
    have hf : ⌊(6023564501608038 / 2 ^ 51 : ℚ)⌋₊ = 2 := by
      rw [Nat.floor_eq_iff (by norm_num)]
      constructor <;> norm_num
    have hl : Nat.log 2 2 = 1 :=
      Nat.log_eq_of_pow_le_of_lt_pow (by norm_num) (by norm_num)
    rw [hf, hl]
    norm_num
  simp only [toDouble, if_neg hne, if_neg hnonneg, habs, hlog]
  rw [show ((52 : ℤ) - 1) = ((51 : ℕ) : ℤ) by norm_num, zpow_natCast]
  have harg : (6023564501608038 / 2 ^ 51 : ℚ) * 2 ^ (51 : ℕ) =
      ((6023564501608038 : ℤ) : ℚ) := by
    push_cast
    field_simp
  rw [harg, roundHalfEvenQ_intCast]
  rw [show ((1 : ℤ) - 52) = -(((51 : ℕ)) : ℤ) by norm_num, zpow_neg, zpow_natCast]
  push_cast
  ring

/-- Stored amount computed by the code for one page, one copy, at the
configured B&W rate 2.675: the float pipeline stores 2.67. -/
theorem price_float_2675 :
    calculate_price PrintType.BW 1 1 (some (6023564501608038 / 2 ^ 51)) none =
      267 / 100 := by
  have hv0 : ¬((6023564501608038 / 2 ^ 51 : ℚ) = 0) := by norm_num
  simp only [calculate_price, pyOrDefault, PRICE_PER_PAGE_BW, PRICE_PER_PAGE_COLOR,
    if_neg hv0]
  rw [show (((1 * 1 : ℕ)) : ℚ) = ((1 : ℕ) : ℚ) by norm_num]
  rw [toDouble_natCast 1 (by norm_num) (by norm_num)]
  rw [show (((1 : ℕ)) : ℚ) = (1 : ℚ) from Nat.cast_one, one_mul]
  rw [td_idem_2675]
  unfold pyRound2
  rw [roundHalfEvenQ_eq_of_lt ((6023564501608038 / 2 ^ 51 : ℚ) * 100) 267
    (by rw [Int.floor_eq_iff]; constructor <;> norm_num) (by norm_num)]
  norm_num

/-- Stored amount demanded by the spec for the same order: exact decimal
arithmetic rounds 2.675 to 2.68. -/
theorem price_spec_2675 :
    calculate_price_decimal_spec PrintType.BW 1 1 (2675 / 1000) 10 = 268 / 100 := by
  simp only [calculate_price_decimal_spec]
  rw [show (((1 : ℕ)) : ℚ) * (((1 : ℕ)) : ℚ) * (2675 / 1000 : ℚ) = (2675 / 1000 : ℚ)
    by norm_num]
  unfold pyRound2
  rw [roundHalfEvenQ_eq_tie_odd ((2675 / 1000 : ℚ) * 100) 267
    (by rw [Int.floor_eq_iff]; constructor <;> norm_num)
    (by norm_num) (by omega)]
  norm_num

/-- C4 counterexample: with the per-page B&W rate configured as the decimal
2.675 (which the settings layer parses into the nearest binary64 double), one
page and one copy store amount 2.67, while the exact rational value 1 x 1 x
2.675 rounded to 2 decimals is 2.68 — binary floating point is used for the
stored amount and changes it. -/
theorem claim_C4_counterexample :
    calculate_price PrintType.BW 1 1 (some (toDouble (2675 / 1000))) none =
      267 / 100 ∧
    calculate_price_decimal_spec PrintType.BW 1 1 (2675 / 1000) 10 = 268 / 100 ∧
    (267 / 100 : ℚ) ≠ 268 / 100 := by
  refine ⟨?_, price_spec_2675, by norm_num⟩
  rw [td_2675]
  exact price_float_2675

/-- Witness for C4 as amended at BOTH, 2 copies, 3 pages. -/
theorem claim_C4_witness :
    calculate_price PrintType.BOTH 2 3 none none =
      calculate_price_decimal_spec PrintType.BOTH 2 3
        PRICE_PER_PAGE_BW PRICE_PER_PAGE_COLOR :=
  claim_C4 PrintType.BOTH 2 3 (by norm_num) (by norm_num) (by norm_num) (by norm_num)

end Theorems

end AmpK
